import Mathlib

set_option maxRecDepth 100000

/-!
Verification development for the ddt_backend task-tracker service.

The reminder scheduler (`checkAndSendReminders` in src/index.js) and the
authenticated HTTP task routes are embedded below as executable Lean
definitions; time is modelled as seconds on the scheduler's fixed
timezone clock (all timestamp arithmetic in the source happens in the
single zone the luxon `DateTime` objects are pinned to).
-/

namespace DDT

/-! ## Gregorian calendar arithmetic

`civilFromDays`/`daysFromCivil` convert between a day count (days since
1970-01-01 of the scheduler's local calendar) and civil year/month/day,
mirroring what luxon's `DateTime` does for the dates the scheduler
handles (all well after 1970). -/

def isLeap (y : Nat) : Bool :=
  y % 4 == 0 && (y % 100 != 0 || y % 400 == 0)

def daysInMonth (y m : Nat) : Nat :=
  if m == 2 then (if isLeap y then 29 else 28)
  else if m == 4 || m == 6 || m == 9 || m == 11 then 30
  else 31

def daysFromCivil (y m d : Nat) : Nat :=
  let y2 := if m ≤ 2 then y - 1 else y
  let era := y2 / 400
  let yoe := y2 % 400
  let mp := if m > 2 then m - 3 else m + 9
  let doy := (153 * mp + 2) / 5 + d - 1
  let doe := yoe * 365 + yoe / 4 - yoe / 100 + doy
  era * 146097 + doe - 719468

def civilFromDays (z : Nat) : Nat × Nat × Nat :=
  let z2 := z + 719468
  let era := z2 / 146097
  let doe := z2 % 146097
  let yoe := (doe - doe / 1460 + doe / 36524 - doe / 146096) / 365
  let y := yoe + era * 400
  let doy := doe - (365 * yoe + yoe / 4 - yoe / 100)
  let mp := (5 * doy + 2) / 153
  let d := doy - (153 * mp + 2) / 5 + 1
  let m := if mp < 10 then mp + 3 else mp - 9
  (if m ≤ 2 then y + 1 else y, m, d)

def pad2 (n : Nat) : String :=
  if n < 10 then "0" ++ toString n else toString n

/-- Embedding of luxon's `toFormat('dd/MM/yyyy, hh:mm:ss a')` as used on
the window bounds in `checkAndSendReminders`: two-digit day and month,
four-digit year, 12-hour clock with an upper-case meridiem. -/
def toLocaleFormat (t : Nat) : String :=
  let c := civilFromDays (t / 86400)
  let s := t % 86400
  let h := s / 3600
  let h12 := if h % 12 == 0 then 12 else h % 12
  let mer := if h < 12 then "AM" else "PM"
  pad2 c.2.2 ++ "/" ++ pad2 c.2.1 ++ "/" ++ toString c.1 ++ ", " ++
    pad2 h12 ++ ":" ++ pad2 (s / 60 % 60) ++ ":" ++ pad2 (s % 60) ++ " " ++ mer

/-! ## Text comparison

The live query in src/index.js applies Supabase `gte`/`lte` to the
text-typed `remindertime` column, which Postgres resolves as string
comparison; `strLe` is that comparison (byte/codepoint lexicographic). -/

def lexLe : List Char → List Char → Bool
  | [], _ => true
  | _ :: _, [] => false
  | a :: as, b :: bs => if a < b then true else if b < a then false else lexLe as bs

def strLe (s t : String) : Bool := lexLe s.data t.data

/-! ## Data model (tables `post` and `logindata`) -/

structure Task where
  id : Nat
  user_id : Nat
  task : String
  ttype : String
  timeofentry : String
  completestatus : Bool
  remindertime : String
  currentstatus : Bool
deriving DecidableEq

structure User where
  id : Nat
  email : String
  password : String
  firstname : String
  lastname : String
deriving DecidableEq

structure Store where
  posts : List Task
  users : List User
deriving DecidableEq

structure Mail where
  mfrom : String
  mto : String
  subject : String
  text : String
deriving DecidableEq

/-! ## Reminder scheduler (`checkAndSendReminders`, src/index.js lines 774-820) -/

/-- The embedded `logindata:logindata(email, firstname, lastname)` join:
look up the task's owner row by primary key. -/
def resolveOwner (store : Store) (uid : Nat) : Option User :=
  store.users.find? (fun u => u.id == uid)

/-- The `mailOptions` object built for one matched row. -/
def mkMail (smtp : String) (u : User) (row : Task) : Mail :=
  { mfrom := smtp
  , mto := u.email
  , subject := "Upcoming Task Reminder"
  , text := "Dear " ++ u.firstname ++ " " ++ u.lastname ++
      ",\n\nThis is a reminder for your task which is scheduled at " ++
      row.remindertime ++ "\n Type: " ++ row.ttype ++ "\n Task: " ++ row.task ++
      ".\n Please complete it soon!\n\nBest regards,\nDaily task Tracker 🩷" }

/-- The row filter of the Supabase query:
`.eq('completestatus', false).gte('remindertime', lower).lte('remindertime', upper)`
with `lower`/`upper` already formatted as locale strings. -/
def dueFilter (lower upper : String) (t : Task) : Bool :=
  t.completestatus == false && strLe lower t.remindertime && strLe t.remindertime upper

/-- The tick's store query: bounds are `now + 14m30s` and `now + 15m30s`
formatted with `toFormat('dd/MM/yyyy, hh:mm:ss a')`, compared against the
stored `remindertime` text. -/
def queryDue (store : Store) (now : Nat) : List Task :=
  store.posts.filter
    (dueFilter (toLocaleFormat (now + 870)) (toLocaleFormat (now + 930)))

inductive TickErr where
  | queryError : TickErr
  | ownerMissing : Nat → TickErr
  | sendFailed : Mail → TickErr
deriving DecidableEq

structure LoopOut where
  sent : List Mail
  attempted : List Mail
  err : Option TickErr
deriving DecidableEq

/-- The `for (const row of tasks)` loop.  Exceptions escape to the
tick-level catch: a row whose owner embed is null throws on
`row.logindata.email` before any mail is built, and a rejected
`transporter.sendMail` throws after the attempt; either ends the loop. -/
def processRows (store : Store) (smtp : String) (sendOk : Mail → Bool) :
    List Task → LoopOut
  | [] => ⟨[], [], none⟩
  | row :: rest =>
    match resolveOwner store row.user_id with
    | none => ⟨[], [], some (TickErr.ownerMissing row.id)⟩
    | some u =>
      let m := mkMail smtp u row
      if sendOk m then
        let o := processRows store smtp sendOk rest
        ⟨m :: o.sent, m :: o.attempted, o.err⟩
      else ⟨[], [m], some (TickErr.sendFailed m)⟩

structure TickResult where
  sent : List Mail
  attempted : List Mail
  log : List String
  errCaught : Option TickErr
  store : Store
deriving DecidableEq

/-- One tick of `checkAndSendReminders`.  `queryFails` is the
environment's choice of whether the store query errors, `sendOk` whether
a given send succeeds.  Every failure is absorbed by the function's
single try/catch whose body is empty (the `console.error` there is
commented out), so the `log` of a tick is always empty and no failure is
fatal.  The function never writes to the store. -/
def runTick (store : Store) (smtp : String) (queryFails : Bool)
    (sendOk : Mail → Bool) (now : Nat) : TickResult :=
  if queryFails then
    { sent := [], attempted := [], log := [], errCaught := some TickErr.queryError
    , store := store }
  else
    let o := processRows store smtp sendOk (queryDue store now)
    { sent := o.sent, attempted := o.attempted, log := [], errCaught := o.err
    , store := store }

/-- A row the loop gets through cleanly: its owner resolves and the
send oracle accepts its mail. -/
def rowOk (store : Store) (smtp : String) (sendOk : Mail → Bool) (r : Task) : Bool :=
  match resolveOwner store r.user_id with
  | some v => sendOk (mkMail smtp v r)
  | none => false

/-- The mails the loop builds for a row list whose owners all resolve. -/
def okMails (store : Store) (smtp : String) (rows : List Task) : List Mail :=
  rows.filterMap (fun r => (resolveOwner store r.user_id).map (fun v => mkMail smtp v r))

/-! ## Spec-side parsing of `remindertime`

The specification (and the predecessor implementation kept in comments
in src/index.js, which used `TO_TIMESTAMP(remindertime, 'DD/MM/YYYY,
HH12:MI:SS AM')`) treats the reminder text as a timestamp parsed under
the fixed locale format.  `parseReminder` is that parse: it is the
spec's window semantics, against which the live lexicographic query is
compared. -/

def digitVal (c : Char) : Nat := c.toNat - 48

def parseReminder (s : String) : Option Nat :=
  match s.data with
  | [d1, d2, s1, m1, m2, s2, y1, y2, y3, y4, c1, sp1, h1, h2, c2, n1, n2, c3, e1, e2, sp2, a1, a2] =>
    if s1 == '/' && s2 == '/' && c1 == ',' && sp1 == ' ' && c2 == ':' && c3 == ':' &&
       sp2 == ' ' && [d1, d2, m1, m2, y1, y2, y3, y4, h1, h2, n1, n2, e1, e2].all Char.isDigit
    then
      let d := digitVal d1 * 10 + digitVal d2
      let mo := digitVal m1 * 10 + digitVal m2
      let y := digitVal y1 * 1000 + digitVal y2 * 100 + digitVal y3 * 10 + digitVal y4
      let h := digitVal h1 * 10 + digitVal h2
      let mi := digitVal n1 * 10 + digitVal n2
      let se := digitVal e1 * 10 + digitVal e2
      let merOk := (a1 == 'A' || a1 == 'P' || a1 == 'a' || a1 == 'p') &&
                   (a2 == 'M' || a2 == 'm')
      let isPM := a1 == 'P' || a1 == 'p'
      if merOk ∧ 1 ≤ mo ∧ mo ≤ 12 ∧ 1 ≤ d ∧ d ≤ daysInMonth y mo ∧ 1 ≤ h ∧ h ≤ 12 ∧
         mi < 60 ∧ se < 60 ∧ 1970 ≤ y then
        some (daysFromCivil y mo d * 86400 +
          (if isPM then h % 12 + 12 else h % 12) * 3600 + mi * 60 + se)
      else none
    else none
  | _ => none

/-! ## Authenticated HTTP task routes (src/index.js)

Each handler's Supabase call works on the `post` table, always filtered
by `.eq('user_id', req.userId)` with `req.userId` taken from the
validated token.  `db` is the table contents; handlers return the HTTP
response data and, for writes, the updated table. -/

/-- Row predicate of `GET /tasks`:
`user_id = uid AND completestatus = false AND currentstatus = false`. -/
def pendingFilter (uid : Nat) (r : Task) : Bool :=
  r.user_id == uid && r.completestatus == false && r.currentstatus == false

/-- Row predicate of `GET /taskschange`:
`user_id = uid AND completestatus = true AND currentstatus = false`. -/
def completedFilter (uid : Nat) (r : Task) : Bool :=
  r.user_id == uid && r.completestatus == true && r.currentstatus == false

/-- Insertion step of the `order('timeofentry', descending)` sort. -/
def insertByEntryDesc (x : Task) : List Task → List Task
  | [] => [x]
  | y :: ys =>
    if strLe y.timeofentry x.timeofentry then x :: y :: ys
    else y :: insertByEntryDesc x ys

/-- `order('timeofentry', { ascending: false })`. -/
def orderByEntryDesc : List Task → List Task
  | [] => []
  | x :: xs => insertByEntryDesc x (orderByEntryDesc xs)

/-- `GET /tasks`: the user's pending tasks, newest entry first. -/
def pendingTasks (uid : Nat) (db : List Task) : List Task :=
  orderByEntryDesc (db.filter (pendingFilter uid))

/-- `GET /taskschange`: the user's completed, still-visible tasks. -/
def completedTasks (uid : Nat) (db : List Task) : List Task :=
  orderByEntryDesc (db.filter (completedFilter uid))

/-- `POST /tasks`: insert a row whose `user_id` is the token's user id
(`newId` models the id the store assigns).  Returns the created row and
the new table. -/
def createTask (uid newId : Nat) (tk ty toe : String) (cs : Bool)
    (rt : String) (cur : Bool) (db : List Task) : Task × List Task :=
  let row : Task :=
    { id := newId, user_id := uid, task := tk, ttype := ty, timeofentry := toe
    , completestatus := cs, remindertime := rt, currentstatus := cur }
  (row, db ++ [row])

def setStatus (cs cur : Bool) (r : Task) : Task :=
  { r with completestatus := cs, currentstatus := cur }

/-- `PATCH /tasks/:id` (mark as done): update `completestatus` and
`currentstatus` on rows with `id = tid AND user_id = uid`; the response
is the updated matching rows (`.single()` errors unless exactly one). -/
def markDone (uid tid : Nat) (cs cur : Bool) (db : List Task) :
    List Task × List Task :=
  (db.map (fun r => if r.id == tid && r.user_id == uid then setStatus cs cur r else r),
   (db.filter (fun r => r.id == tid && r.user_id == uid)).map (setStatus cs cur))

/-- `PATCH /dtasks/:id` (hide task): same update as `markDone`. -/
def hideTask (uid tid : Nat) (cs cur : Bool) (db : List Task) :
    List Task × List Task :=
  (db.map (fun r => if r.id == tid && r.user_id == uid then setStatus cs cur r else r),
   (db.filter (fun r => r.id == tid && r.user_id == uid)).map (setStatus cs cur))

/-- `PATCH /taskschange/:id` (undo a completed task): same update. -/
def undoTask (uid tid : Nat) (cs cur : Bool) (db : List Task) :
    List Task × List Task :=
  (db.map (fun r => if r.id == tid && r.user_id == uid then setStatus cs cur r else r),
   (db.filter (fun r => r.id == tid && r.user_id == uid)).map (setStatus cs cur))

def setContent (tk ty : String) (r : Task) : Task :=
  { r with task := tk, ttype := ty }

/-- `PUT /tasks/:id` (edit task/type): update `task` and `type` on rows
with `id = tid AND user_id = uid`. -/
def editTask (uid tid : Nat) (tk ty : String) (db : List Task) :
    List Task × List Task :=
  (db.map (fun r => if r.id == tid && r.user_id == uid then setContent tk ty r else r),
   (db.filter (fun r => r.id == tid && r.user_id == uid)).map (setContent tk ty))

/-- `GET /reminders`: total and pending counts of the user's rows. -/
def remindersSummary (uid : Nat) (db : List Task) : Nat × Nat :=
  let tasks := db.filter (fun r => r.user_id == uid)
  (tasks.length,
   (tasks.filter (fun r => r.completestatus == false && r.currentstatus == false)).length)

/-- `GET /reminderspie`: per-category counts of the user's completed,
current rows. -/
def remindersPie (uid : Nat) (db : List Task) : Nat × Nat × Nat × Nat :=
  let tasks := db.filter
    (fun r => r.user_id == uid && r.completestatus == true && r.currentstatus == true)
  ((tasks.filter (fun r => r.ttype == "Personal")).length,
   (tasks.filter (fun r => r.ttype == "Family")).length,
   (tasks.filter (fun r => r.ttype == "Work")).length,
   (tasks.filter (fun r => r.ttype == "Group Activity")).length)

/-! ## Concrete fixtures

A tick at 10:00:00 on 27/10/2025 (scheduler clock), giving the window
bounds `27/10/2025, 10:14:30 AM` and `27/10/2025, 10:15:30 AM`. -/

def cexNow : Nat := daysFromCivil 2025 10 27 * 86400 + 10 * 3600

def uA : User := { id := 1, email := "a@x", password := "h", firstname := "Ann", lastname := "Ames" }

def uB : User := { id := 2, email := "b@x", password := "h", firstname := "Bob", lastname := "Bell" }

def tA : Task :=
  { id := 1, user_id := 1, task := "alpha", ttype := "Work", timeofentry := "e1"
  , completestatus := false, remindertime := "27/10/2025, 10:14:40 AM", currentstatus := false }

def tB : Task :=
  { id := 2, user_id := 2, task := "beta", ttype := "Personal", timeofentry := "e2"
  , completestatus := false, remindertime := "27/10/2025, 10:15:00 AM", currentstatus := false }

/-- A pending task whose reminder text reads 10:14:45 PM: parsed, it is
about twelve hours past the tick's window. -/
def tEvening : Task :=
  { id := 3, user_id := 1, task := "report", ttype := "Work", timeofentry := "e3"
  , completestatus := false, remindertime := "27/10/2025, 10:14:45 PM", currentstatus := false }

/-- A task owned by user id 99, which resolves to no user row. -/
def tOrphan : Task :=
  { id := 4, user_id := 99, task := "ghost", ttype := "Work", timeofentry := "e4"
  , completestatus := false, remindertime := "27/10/2025, 10:14:50 AM", currentstatus := false }

/-- `tA` with its completion flag set. -/
def tDone : Task := { tA with completestatus := true }

def allOk : Mail → Bool := fun _ => true

/-- Send oracle that rejects exactly the mails addressed to `uA`. -/
def failFirst : Mail → Bool := fun m => !(m.mto == "a@x")

/-! ## Lemmas about the scheduler loop -/

lemma processRows_ok_prefix (store : Store) (smtp : String) (sendOk : Mail → Bool)
    (pre rest : List Task) (h : pre.all (rowOk store smtp sendOk) = true) :
    processRows store smtp sendOk (pre ++ rest) =
      ⟨okMails store smtp pre ++ (processRows store smtp sendOk rest).sent,
       okMails store smtp pre ++ (processRows store smtp sendOk rest).attempted,
       (processRows store smtp sendOk rest).err⟩ := by
  induction pre with
  | nil => simp [okMails]
  | cons r pre ih =>
    rw [List.all_cons, Bool.and_eq_true] at h
    obtain ⟨h1, h2⟩ := h
    cases hres : resolveOwner store r.user_id with
    | none => simp [rowOk, hres] at h1
    | some v =>
      simp only [rowOk, hres] at h1
      simp [processRows, hres, h1, ih h2, okMails]

lemma processRows_all_ok (store : Store) (smtp : String) (sendOk : Mail → Bool)
    (rows : List Task) (h : rows.all (rowOk store smtp sendOk) = true) :
    processRows store smtp sendOk rows =
      ⟨okMails store smtp rows, okMails store smtp rows, none⟩ := by
  have := processRows_ok_prefix store smtp sendOk rows [] h
  simpa [processRows] using this

lemma mem_attempted_processRows (store : Store) (smtp : String) (sendOk : Mail → Bool) :
    ∀ rows m, m ∈ (processRows store smtp sendOk rows).attempted →
      ∃ t u, t ∈ rows ∧ resolveOwner store t.user_id = some u ∧ m = mkMail smtp u t := by
  intro rows
  induction rows with
  | nil => intro m hm; simp [processRows] at hm
  | cons r rest ih =>
    intro m hm
    cases hres : resolveOwner store r.user_id with
    | none => simp [processRows, hres] at hm
    | some v =>
      by_cases hs : sendOk (mkMail smtp v r) = true
      · simp [processRows, hres, hs] at hm
        rcases hm with hm | hm
        · exact ⟨r, v, by simp, hres, hm⟩
        · obtain ⟨t, u, ht, hu, hmu⟩ := ih m hm
          exact ⟨t, u, by simp [ht], hu, hmu⟩
      · rw [Bool.not_eq_true] at hs
        simp [processRows, hres, hs] at hm
        exact ⟨r, v, by simp, hres, hm⟩

/-! ## Lemmas about the HTTP handlers -/

lemma all_insertByEntryDesc (p : Task → Bool) (x : Task) (l : List Task) :
    (insertByEntryDesc x l).all p = (p x && l.all p) := by
  induction l with
  | nil => simp [insertByEntryDesc]
  | cons y ys ih =>
    rw [insertByEntryDesc]
    by_cases h : strLe y.timeofentry x.timeofentry = true
    · simp [h, List.all_cons, Bool.and_assoc, Bool.and_left_comm]
    · simp [h, List.all_cons, ih, Bool.and_assoc, Bool.and_left_comm]

lemma all_orderByEntryDesc (p : Task → Bool) (l : List Task) :
    (orderByEntryDesc l).all p = l.all p := by
  induction l with
  | nil => rfl
  | cons x xs ih => rw [orderByEntryDesc, all_insertByEntryDesc, ih, List.all_cons]

lemma filter_all_of_imp {α : Type} (q p : α → Bool) (h : ∀ r, q r = true → p r = true)
    (db : List α) : (db.filter q).all p = true := by
  rw [List.all_eq_true]
  intro r hr
  rw [List.mem_filter] at hr
  exact h r hr.2

lemma filter_map_guard (db : List Task) (cond : Task → Bool) (f : Task → Task)
    (p : Task → Bool)
    (h1 : ∀ r, p r = true → cond r = false)
    (h2 : ∀ r, p (f r) = p r) :
    (db.map (fun r => if cond r then f r else r)).filter p = db.filter p := by
  induction db with
  | nil => rfl
  | cons a l ih =>
    by_cases hc : cond a = true
    · have hpa : p a = false := by
        cases hpa : p a
        · rfl
        · exact absurd (h1 a hpa) (by simp [hc])
      have hpf : p (f a) = false := by rw [h2, hpa]
      simp [List.filter_cons, hc, hpa, hpf, ih]
    · rw [Bool.not_eq_true] at hc
      simp [List.filter_cons, hc, ih]

lemma filter_absorb (p q : Task → Bool) (h : ∀ r, q r = true → p r = true)
    (l : List Task) : (l.filter p).filter q = l.filter q := by
  induction l with
  | nil => rfl
  | cons a l ih =>
    by_cases hp : p a = true
    · simp [List.filter_cons, hp, ih]
    · have hq : q a = false := by
        cases hqa : q a
        · rfl
        · exact absurd (h a hqa) hp
      rw [Bool.not_eq_true] at hp
      simp [List.filter_cons, hp, hq, ih]

/-! ## Claim theorems -/

/-- Claim C1 (refuted by evaluation — the code is the slip): the live
query compares the `remindertime` text lexicographically with the
formatted bounds instead of comparing parsed timestamps.  At a tick
whose window is `[27/10/2025 10:14:30 AM, 27/10/2025 10:15:30 AM]`, a
pending task whose reminder text reads `27/10/2025, 10:14:45 PM` is
selected, although its timestamp parsed under the fixed locale format
lies about twelve hours beyond the window's upper bound. -/
theorem c1_selection_is_lexicographic_not_parsed_window :
    tEvening ∈ queryDue ⟨[tEvening], [uA]⟩ cexNow ∧
    tEvening.completestatus = false ∧
    parseReminder tEvening.remindertime =
      some (daysFromCivil 2025 10 27 * 86400 + 22 * 3600 + 14 * 60 + 45) ∧
    cexNow + 930 < daysFromCivil 2025 10 27 * 86400 + 22 * 3600 + 14 * 60 + 45 := by
  decide

/-- Claim C4, counterexample to the "logged" conjunct: when the store
query fails, the tick's catch block is empty (its `console.error` is
commented out), so nothing is logged. -/
theorem c4_query_failure_unlogged_cex :
    (runTick ⟨[tA], [uA]⟩ "s@x" true allOk cexNow).errCaught = some TickErr.queryError ∧
    (runTick ⟨[tA], [uA]⟩ "s@x" true allOk cexNow).log = [] := by
  decide

/-- Claim C4 (amended: the error is caught silently, not logged): a
store-query failure aborts only that tick — no message is dispatched or
even attempted, the error is absorbed by the tick's catch, the store is
untouched, and the next tick behaves exactly as it would from the
original store. -/
theorem c4_query_failure_aborts_only_tick (store : Store) (smtp smtp2 : String)
    (sendOk sendOk2 : Mail → Bool) (qf2 : Bool) (now now2 : Nat) :
    (runTick store smtp true sendOk now).sent = [] ∧
    (runTick store smtp true sendOk now).attempted = [] ∧
    (runTick store smtp true sendOk now).errCaught = some TickErr.queryError ∧
    (runTick store smtp true sendOk now).log = [] ∧
    runTick (runTick store smtp true sendOk now).store smtp2 qf2 sendOk2 now2 =
      runTick store smtp2 qf2 sendOk2 now2 := by
  simp [runTick]

/-- Claim C5: a task whose completion flag is true is never selected by
a tick, whatever its reminder text. -/
theorem c5_completed_never_selected (store : Store) (now : Nat) (t : Task)
    (h : t.completestatus = true) : t ∉ queryDue store now := by
  intro hmem
  rw [queryDue, List.mem_filter] at hmem
  have hdue := hmem.2
  rw [dueFilter, h] at hdue
  simp at hdue

theorem c5_completed_never_selected_witness :
    tDone.completestatus = true ∧
    tDone ∉ queryDue ⟨[tDone], [uA]⟩ cexNow :=
  ⟨rfl, c5_completed_never_selected ⟨[tDone], [uA]⟩ cexNow tDone rfl⟩

/-- Claim C6: a tick writes nothing — the store (both task and user
records) after `runTick` is the one before it, and selection on any
later tick depends only on the task's current flags and that tick's
window, so a notified task stays eligible while its completion flag is
false and its reminder text sits inside the computed window. -/
theorem c6_tick_persists_nothing (store : Store) (smtp : String) (queryFails : Bool)
    (sendOk : Mail → Bool) (now now2 : Nat) (t : Task) :
    (runTick store smtp queryFails sendOk now).store = store ∧
    queryDue (runTick store smtp queryFails sendOk now).store now2 = queryDue store now2 ∧
    (t ∈ queryDue store now2 ↔ t ∈ store.posts ∧
      dueFilter (toLocaleFormat (now2 + 870)) (toLocaleFormat (now2 + 930)) t = true) := by
  refine ⟨?_, ?_, ?_⟩
  · cases queryFails <;> simp [runTick]
  · cases queryFails <;> simp [runTick]
  · rw [queryDue]
    exact List.mem_filter

/-- Claim C7: a tick whose query matches nothing completes with no
error, no dispatch attempt, and no store change. -/
theorem c7_zero_matches_silent_tick (store : Store) (smtp : String)
    (sendOk : Mail → Bool) (now : Nat) (h : queryDue store now = []) :
    (runTick store smtp false sendOk now).sent = [] ∧
    (runTick store smtp false sendOk now).attempted = [] ∧
    (runTick store smtp false sendOk now).errCaught = none ∧
    (runTick store smtp false sendOk now).store = store := by
  simp [runTick, h, processRows]

theorem c7_zero_matches_silent_tick_witness :
    queryDue ⟨[], []⟩ cexNow = [] ∧
    ((runTick ⟨[], []⟩ "s@x" false allOk cexNow).sent = [] ∧
     (runTick ⟨[], []⟩ "s@x" false allOk cexNow).attempted = [] ∧
     (runTick ⟨[], []⟩ "s@x" false allOk cexNow).errCaught = none ∧
     (runTick ⟨[], []⟩ "s@x" false allOk cexNow).store = ⟨[], []⟩) :=
  ⟨rfl, c7_zero_matches_silent_tick ⟨[], []⟩ "s@x" allOk cexNow rfl⟩

/-- Claim C2, counterexample: there is no per-message try/catch in the
loop — a rejected `sendMail` throws to the tick-level catch.  Here the
query matches `tA` then `tB`, the send for `tA` fails, and no dispatch
attempt is ever made for `tB`. -/
theorem c2_send_failure_halts_tick_cex :
    queryDue ⟨[tA, tB], [uA, uB]⟩ cexNow = [tA, tB] ∧
    failFirst (mkMail "s@x" uA tA) = false ∧
    (runTick ⟨[tA, tB], [uA, uB]⟩ "s@x" false failFirst cexNow).attempted =
      [mkMail "s@x" uA tA] ∧
    (runTick ⟨[tA, tB], [uA, uB]⟩ "s@x" false failFirst cexNow).sent = [] ∧
    mkMail "s@x" uB tB ∉
      (runTick ⟨[tA, tB], [uA, uB]⟩ "s@x" false failFirst cexNow).attempted := by
  decide

/-- Claim C2 (amended): a dispatch failure is caught by the tick-level
handler rather than per message — the tick does not abort the process
and the dispatches already made stand, but no further matched task in
that tick is attempted; the store is untouched, so later ticks are
unaffected. -/
theorem c2_send_failure_aborts_rest_of_tick (store : Store) (smtp : String)
    (sendOk : Mail → Bool) (now : Nat) (pre post : List Task) (t : Task) (u : User)
    (hq : queryDue store now = pre ++ t :: post)
    (hpre : pre.all (rowOk store smtp sendOk) = true)
    (hu : resolveOwner store t.user_id = some u)
    (hf : sendOk (mkMail smtp u t) = false) :
    (runTick store smtp false sendOk now).sent = okMails store smtp pre ∧
    (runTick store smtp false sendOk now).attempted =
      okMails store smtp pre ++ [mkMail smtp u t] ∧
    (runTick store smtp false sendOk now).errCaught =
      some (TickErr.sendFailed (mkMail smtp u t)) ∧
    (runTick store smtp false sendOk now).store = store := by
  have hrest : processRows store smtp sendOk (t :: post) =
      ⟨[], [mkMail smtp u t], some (TickErr.sendFailed (mkMail smtp u t))⟩ := by
    simp [processRows, hu, hf]
  have h := processRows_ok_prefix store smtp sendOk pre (t :: post) hpre
  rw [hrest] at h
  simp [runTick, hq, h]

theorem c2_send_failure_aborts_rest_of_tick_witness :
    (runTick ⟨[tA, tB], [uA, uB]⟩ "s@x" false failFirst cexNow).sent =
      okMails ⟨[tA, tB], [uA, uB]⟩ "s@x" [] ∧
    (runTick ⟨[tA, tB], [uA, uB]⟩ "s@x" false failFirst cexNow).attempted =
      okMails ⟨[tA, tB], [uA, uB]⟩ "s@x" [] ++ [mkMail "s@x" uA tA] ∧
    (runTick ⟨[tA, tB], [uA, uB]⟩ "s@x" false failFirst cexNow).errCaught =
      some (TickErr.sendFailed (mkMail "s@x" uA tA)) ∧
    (runTick ⟨[tA, tB], [uA, uB]⟩ "s@x" false failFirst cexNow).store =
      ⟨[tA, tB], [uA, uB]⟩ :=
  c2_send_failure_aborts_rest_of_tick ⟨[tA, tB], [uA, uB]⟩ "s@x" failFirst cexNow
    [] [tB] tA uA (by decide) (by decide) (by decide) (by decide)

/-- Claim C3, counterexample: a matched task whose owner embed is null
throws on `row.logindata.email`, which escapes to the tick-level catch.
Here the query matches `tOrphan` (owner id 99, no such user) then `tB`;
no message is sent for `tOrphan`, but `tB` is not processed either. -/
theorem c3_missing_owner_halts_tick_cex :
    queryDue ⟨[tOrphan, tB], [uA, uB]⟩ cexNow = [tOrphan, tB] ∧
    resolveOwner ⟨[tOrphan, tB], [uA, uB]⟩ tOrphan.user_id = none ∧
    (runTick ⟨[tOrphan, tB], [uA, uB]⟩ "s@x" false allOk cexNow).sent = [] ∧
    (runTick ⟨[tOrphan, tB], [uA, uB]⟩ "s@x" false allOk cexNow).attempted = [] ∧
    mkMail "s@x" uB tB ∉
      (runTick ⟨[tOrphan, tB], [uA, uB]⟩ "s@x" false allOk cexNow).attempted := by
  decide

/-- Claim C3 (amended): a matched task whose owning-user reference does
not resolve gets no message, and the failure is absorbed by the
tick-level catch — but it aborts the remainder of the tick: tasks
before it in the query order are dispatched, tasks after it are not;
the store is untouched, so later ticks are unaffected. -/
theorem c3_missing_owner_aborts_rest_of_tick (store : Store) (smtp : String)
    (sendOk : Mail → Bool) (now : Nat) (pre post : List Task) (t : Task)
    (hq : queryDue store now = pre ++ t :: post)
    (hpre : pre.all (rowOk store smtp sendOk) = true)
    (hu : resolveOwner store t.user_id = none) :
    (runTick store smtp false sendOk now).sent = okMails store smtp pre ∧
    (runTick store smtp false sendOk now).attempted = okMails store smtp pre ∧
    (runTick store smtp false sendOk now).errCaught =
      some (TickErr.ownerMissing t.id) ∧
    (runTick store smtp false sendOk now).store = store := by
  have hrest : processRows store smtp sendOk (t :: post) =
      ⟨[], [], some (TickErr.ownerMissing t.id)⟩ := by
    simp [processRows, hu]
  have h := processRows_ok_prefix store smtp sendOk pre (t :: post) hpre
  rw [hrest] at h
  simp [runTick, hq, h]

theorem c3_missing_owner_aborts_rest_of_tick_witness :
    (runTick ⟨[tA, tOrphan, tB], [uA, uB]⟩ "s@x" false allOk cexNow).sent =
      okMails ⟨[tA, tOrphan, tB], [uA, uB]⟩ "s@x" [tA] ∧
    (runTick ⟨[tA, tOrphan, tB], [uA, uB]⟩ "s@x" false allOk cexNow).attempted =
      okMails ⟨[tA, tOrphan, tB], [uA, uB]⟩ "s@x" [tA] ∧
    (runTick ⟨[tA, tOrphan, tB], [uA, uB]⟩ "s@x" false allOk cexNow).errCaught =
      some (TickErr.ownerMissing tOrphan.id) ∧
    (runTick ⟨[tA, tOrphan, tB], [uA, uB]⟩ "s@x" false allOk cexNow).store =
      ⟨[tA, tOrphan, tB], [uA, uB]⟩ :=
  c3_missing_owner_aborts_rest_of_tick ⟨[tA, tOrphan, tB], [uA, uB]⟩ "s@x" allOk cexNow
    [tA] [tB] tOrphan (by decide) (by decide) (by decide)

/-- Claim C8: every mail the tick hands to the dispatcher is built for
a matched task and its resolved owner, with recipient the owner's
email, the fixed subject, and a body interpolating the owner's first
and last name, the task text, the category, and the stored
reminder-time string verbatim. -/
theorem c8_mail_construction (store : Store) (smtp : String) (sendOk : Mail → Bool)
    (now : Nat) (m : Mail) (h : m ∈ (runTick store smtp false sendOk now).attempted) :
    ∃ t u, t ∈ queryDue store now ∧ resolveOwner store t.user_id = some u ∧
      m.mfrom = smtp ∧ m.mto = u.email ∧ m.subject = "Upcoming Task Reminder" ∧
      m.text = "Dear " ++ u.firstname ++ " " ++ u.lastname ++
        ",\n\nThis is a reminder for your task which is scheduled at " ++
        t.remindertime ++ "\n Type: " ++ t.ttype ++ "\n Task: " ++ t.task ++
        ".\n Please complete it soon!\n\nBest regards,\nDaily task Tracker 🩷" := by
  have h2 : m ∈ (processRows store smtp sendOk (queryDue store now)).attempted := by
    simpa [runTick] using h
  obtain ⟨t, u, ht, hu, rfl⟩ := mem_attempted_processRows store smtp sendOk _ m h2
  exact ⟨t, u, ht, hu, rfl, rfl, rfl, rfl⟩

theorem c8_mail_construction_witness :
    ∃ t u, t ∈ queryDue ⟨[tA], [uA]⟩ cexNow ∧
      resolveOwner ⟨[tA], [uA]⟩ t.user_id = some u ∧
      (mkMail "s@x" uA tA).mfrom = "s@x" ∧
      (mkMail "s@x" uA tA).mto = u.email ∧
      (mkMail "s@x" uA tA).subject = "Upcoming Task Reminder" ∧
      (mkMail "s@x" uA tA).text = "Dear " ++ u.firstname ++ " " ++ u.lastname ++
        ",\n\nThis is a reminder for your task which is scheduled at " ++
        t.remindertime ++ "\n Type: " ++ t.ttype ++ "\n Task: " ++ t.task ++
        ".\n Please complete it soon!\n\nBest regards,\nDaily task Tracker 🩷" :=
  c8_mail_construction ⟨[tA], [uA]⟩ "s@x" allOk cexNow (mkMail "s@x" uA tA) (by decide)

/-- Claim C9, counterexample: with a failing dispatch in play the tick
is order-sensitive.  The same matched tasks in the two orders `[tA, tB]`
and `[tB, tA]`, with the send for `tA` failing, dispatch different
multisets of messages (none versus the one for `tB`). -/
theorem c9_order_sensitivity_cex :
    (queryDue ⟨[tB, tA], [uA, uB]⟩ cexNow).Perm (queryDue ⟨[tA, tB], [uA, uB]⟩ cexNow) ∧
    ¬ (((runTick ⟨[tA, tB], [uA, uB]⟩ "s@x" false failFirst cexNow).sent : Multiset Mail) =
       ((runTick ⟨[tB, tA], [uA, uB]⟩ "s@x" false failFirst cexNow).sent : Multiset Mail)) := by
  constructor
  · have h1 : queryDue ⟨[tB, tA], [uA, uB]⟩ cexNow = [tB, tA] := by decide
    have h2 : queryDue ⟨[tA, tB], [uA, uB]⟩ cexNow = [tA, tB] := by decide
    rw [h1, h2]
    exact List.Perm.swap tA tB []
  · intro h
    have e1 : (runTick ⟨[tA, tB], [uA, uB]⟩ "s@x" false failFirst cexNow).sent = [] := by
      decide
    have e2 : (runTick ⟨[tB, tA], [uA, uB]⟩ "s@x" false failFirst cexNow).sent =
        [mkMail "s@x" uB tB] := by decide
    rw [e1, e2] at h
    have hl := (Multiset.coe_eq_coe.mp h).length_eq
    simp at hl

/-- Claim C9 (amended): the tick is order-insensitive only on failure-free
runs — when every matched task's owner resolves and every dispatch
succeeds, permuting the task rows (users unchanged) leaves the multiset
of dispatched messages, and of attempts, unchanged. -/
theorem c9_order_insensitive_when_all_succeed (A B : Store) (smtp : String)
    (sendOk : Mail → Bool) (now : Nat)
    (husers : A.users = B.users) (hperm : A.posts.Perm B.posts)
    (hok : (queryDue A now).all (rowOk A smtp sendOk) = true) :
    (((runTick A smtp false sendOk now).sent : Multiset Mail) =
      ((runTick B smtp false sendOk now).sent : Multiset Mail)) ∧
    (((runTick A smtp false sendOk now).attempted : Multiset Mail) =
      ((runTick B smtp false sendOk now).attempted : Multiset Mail)) := by
  have hres : ∀ uid, resolveOwner A uid = resolveOwner B uid := by
    intro uid; rw [resolveOwner, resolveOwner, husers]
  have hrowOk : ∀ r, rowOk A smtp sendOk r = rowOk B smtp sendOk r := by
    intro r; rw [rowOk, rowOk, hres]
  have hqperm : (queryDue A now).Perm (queryDue B now) := hperm.filter _
  have hallB : (queryDue B now).all (rowOk B smtp sendOk) = true := by
    rw [List.all_eq_true]
    intro r hr
    rw [← hrowOk]
    exact List.all_eq_true.mp hok r (hqperm.mem_iff.mpr hr)
  have hA := processRows_all_ok A smtp sendOk (queryDue A now) hok
  have hB := processRows_all_ok B smtp sendOk (queryDue B now) hallB
  have hfun : (fun r => (resolveOwner A r.user_id).map (fun v => mkMail smtp v r)) =
      (fun r => (resolveOwner B r.user_id).map (fun v => mkMail smtp v r)) :=
    funext (fun r => by rw [hres])
  have hmails : (okMails A smtp (queryDue A now)).Perm (okMails B smtp (queryDue B now)) := by
    rw [okMails, okMails, hfun]
    exact hqperm.filterMap _
  constructor
  · simp only [runTick, if_neg (by simp : ¬ (false = true)), hA, hB]
    exact Multiset.coe_eq_coe.mpr hmails
  · simp only [runTick, if_neg (by simp : ¬ (false = true)), hA, hB]
    exact Multiset.coe_eq_coe.mpr hmails

theorem c9_order_insensitive_when_all_succeed_witness :
    (((runTick ⟨[tA, tB], [uA, uB]⟩ "s@x" false allOk cexNow).sent : Multiset Mail) =
      ((runTick ⟨[tB, tA], [uA, uB]⟩ "s@x" false allOk cexNow).sent : Multiset Mail)) ∧
    (((runTick ⟨[tA, tB], [uA, uB]⟩ "s@x" false allOk cexNow).attempted : Multiset Mail) =
      ((runTick ⟨[tB, tA], [uA, uB]⟩ "s@x" false allOk cexNow).attempted : Multiset Mail)) :=
  c9_order_insensitive_when_all_succeed ⟨[tA, tB], [uA, uB]⟩ ⟨[tB, tA], [uA, uB]⟩
    "s@x" allOk cexNow rfl (List.Perm.swap tB tA []) (by decide)

/-- Claim C10: every authenticated task route keeps to the token's user.
The pending and completed listings contain only rows owned by the token
user; the response row of each update route is owned by the token user;
the mark-done, hide, undo and edit updates leave every row of any other
user exactly as it was; task creation inserts a row owned by the token
user and leaves other users' rows untouched; and the reminders and pie
summaries are functions of the token user's rows alone. -/
theorem c10_user_isolation (db : List Task) (uid tid newId : Nat) (cs cur : Bool)
    (tk ty toe rt : String) :
    (pendingTasks uid db).all (fun r => r.user_id == uid) = true ∧
    (completedTasks uid db).all (fun r => r.user_id == uid) = true ∧
    ((markDone uid tid cs cur db).2).all (fun r => r.user_id == uid) = true ∧
    ((hideTask uid tid cs cur db).2).all (fun r => r.user_id == uid) = true ∧
    ((undoTask uid tid cs cur db).2).all (fun r => r.user_id == uid) = true ∧
    ((editTask uid tid tk ty db).2).all (fun r => r.user_id == uid) = true ∧
    (createTask uid newId tk ty toe cs rt cur db).1.user_id = uid ∧
    ((markDone uid tid cs cur db).1).filter (fun r => !(r.user_id == uid)) =
      db.filter (fun r => !(r.user_id == uid)) ∧
    ((hideTask uid tid cs cur db).1).filter (fun r => !(r.user_id == uid)) =
      db.filter (fun r => !(r.user_id == uid)) ∧
    ((undoTask uid tid cs cur db).1).filter (fun r => !(r.user_id == uid)) =
      db.filter (fun r => !(r.user_id == uid)) ∧
    ((editTask uid tid tk ty db).1).filter (fun r => !(r.user_id == uid)) =
      db.filter (fun r => !(r.user_id == uid)) ∧
    ((createTask uid newId tk ty toe cs rt cur db).2).filter (fun r => !(r.user_id == uid)) =
      db.filter (fun r => !(r.user_id == uid)) ∧
    remindersSummary uid db = remindersSummary uid (db.filter (fun r => r.user_id == uid)) ∧
    remindersPie uid db = remindersPie uid (db.filter (fun r => r.user_id == uid)) := by
  have hcond : ∀ r : Task, (!(r.user_id == uid)) = true →
      (r.id == tid && r.user_id == uid) = false := by
    intro r hr
    rw [Bool.not_eq_eq_eq_not, Bool.not_true] at hr
    simp [hr]
  have hstat : ∀ r : Task, (!((setStatus cs cur r).user_id == uid)) = (!(r.user_id == uid)) :=
    fun r => rfl
  have hcont : ∀ r : Task, (!((setContent tk ty r).user_id == uid)) = (!(r.user_id == uid)) :=
    fun r => rfl
  have hresp : ∀ g : Task → Task, (∀ r : Task, (g r).user_id = r.user_id) →
      ((db.filter (fun r => r.id == tid && r.user_id == uid)).map g).all
        (fun r => r.user_id == uid) = true := by
    intro g hg
    rw [List.all_map]
    apply filter_all_of_imp
    intro r hr
    rw [Bool.and_eq_true] at hr
    simpa [Function.comp, hg r] using hr.2
  refine ⟨?_, ?_, ?_, ?_, ?_, ?_, rfl, ?_, ?_, ?_, ?_, ?_, ?_, ?_⟩
  · rw [pendingTasks, all_orderByEntryDesc]
    apply filter_all_of_imp
    intro r hr
    rw [pendingFilter, Bool.and_eq_true, Bool.and_eq_true] at hr
    exact hr.1.1
  · rw [completedTasks, all_orderByEntryDesc]
    apply filter_all_of_imp
    intro r hr
    rw [completedFilter, Bool.and_eq_true, Bool.and_eq_true] at hr
    exact hr.1.1
  · exact hresp _ (fun r => rfl)
  · exact hresp _ (fun r => rfl)
  · exact hresp _ (fun r => rfl)
  · exact hresp _ (fun r => rfl)
  · exact filter_map_guard db _ _ _ hcond hstat
  · exact filter_map_guard db _ _ _ hcond hstat
  · exact filter_map_guard db _ _ _ hcond hstat
  · exact filter_map_guard db _ _ _ hcond hcont
  · rw [createTask]
    simp [List.filter_append]
  · rw [remindersSummary, remindersSummary,
      filter_absorb (fun r => r.user_id == uid) (fun r => r.user_id == uid)
        (fun r h => h) db]
  · rw [remindersPie, remindersPie,
      filter_absorb (fun r => r.user_id == uid)
        (fun r => r.user_id == uid && r.completestatus == true && r.currentstatus == true)
        (fun r h => by
          rw [Bool.and_eq_true, Bool.and_eq_true] at h
          exact h.1.1) db]

end DDT
